import Mathlib

/-!
Verification of `django-post-content-types`: a shallow embedding of the
request handlers in `views.py`, the two Django forms in `forms.py`, and the
pydantic schema in `schemas.py`, together with theorems settling the claims
about them.

Conventions of the embedding:
* Python strings are modelled by Lean `String`; the character-level helpers
  (`str.upper`, `str.lower`, `str.isdigit`, `str.isalnum`, `str.strip`)
  are modelled on the ASCII fragment, which covers every input the claims
  quantify over.
* `json.loads` and `xml.etree.ElementTree.fromstring` are external library
  collaborators; handlers take them as an explicit function parameter
  (`none` models the parse exception).  Concrete instantiations used in
  examples agree with the real libraries on the inputs they are applied to.
* A Django `JsonResponse` is modelled by `Response`: an HTTP status code
  plus the ordered key/value list of the serialized JSON object.
* An uncaught Python exception escaping a handler is modelled by
  `Except.error` at the handler level; handlers that cannot fault return a
  plain `Response`.
-/

namespace DjangoPostCT

/-- JSON-serializable Python values as they appear in a `JsonResponse` body. -/
inductive PyVal where
  | str (s : String)
  | num (n : Int)
  | bool (b : Bool)
  | null
  | list (xs : List PyVal)
  | dict (kvs : List (String × PyVal))

/-- Model of a Django `JsonResponse`: HTTP status code plus the ordered
field list of the serialized JSON object body. -/
structure Response where
  statusCode : Nat
  body : List (String × PyVal)

/-- Lookup of a key in a serialized JSON object (first match; the bodies
built by the handlers never repeat a key). -/
def pyLookup (k : String) : List (String × PyVal) → Option PyVal
  | [] => none
  | (k', v) :: rest => if k' = k then some v else pyLookup k rest

/-! ### ASCII models of the Python `str` helpers used by `forms.py` -/

/-- Model of Python `str.upper` on one ASCII character. -/
def pyUpperChar (c : Char) : Char :=
  if c.isLower then Char.ofNat (c.toNat - 32) else c

/-- Model of Python `str.lower` on one ASCII character. -/
def pyLowerChar (c : Char) : Char :=
  if c.isUpper then Char.ofNat (c.toNat + 32) else c

/-- Model of Python `str.upper`. -/
def pyUpper (s : String) : String := ⟨s.data.map pyUpperChar⟩

/-- Model of Python `str.lower`. -/
def pyLower (s : String) : String := ⟨s.data.map pyLowerChar⟩

/-- Model of Python `str.isdigit` (ASCII digits; true only on a nonempty
all-digit string). -/
def pyIsDigit (s : String) : Bool := !s.data.isEmpty && s.data.all Char.isDigit

/-- One character of the Python `str.isalnum` test (ASCII letters and digits). -/
def pyIsAlnumChar (c : Char) : Bool := c.isAlpha || c.isDigit

/-- Model of Python `str.isalnum` on a character list: false on the empty
string, true on a nonempty all-alphanumeric string. -/
def pyIsAlnumL (l : List Char) : Bool := !l.isEmpty && l.all pyIsAlnumChar

/-- The characters removed by Python `str.strip()` (ASCII whitespace). -/
def pyIsSpaceChar (c : Char) : Bool :=
  c = ' ' || c = '\t' || c = '\n' || c = '\r' || c = '\x0b' || c = '\x0c'

/-- Model of Python `str.strip()` on a character list. -/
def stripList (l : List Char) : List Char :=
  ((l.dropWhile pyIsSpaceChar).reverse.dropWhile pyIsSpaceChar).reverse

/-- Model of Python `str.strip()`. -/
def pyStrip (s : String) : String := ⟨stripList s.data⟩

/-- Model of Python `"x".split("\n")` on a character list: splitting the
empty string gives `[""]`, and every newline separates two pieces. -/
def splitNl : List Char → List (List Char)
  | [] => [[]]
  | c :: rest =>
    if c = '\n' then [] :: splitNl rest
    else
      match splitNl rest with
      | [] => [[c]]
      | l :: ls => (c :: l) :: ls

/-- Model of Python `username.replace("_", "")`. -/
def removeUnderscores (s : String) : List Char := s.data.filter (fun c => c ≠ '_')

/-! ### The forms of `forms.py`

Django runs, per field in declaration order: `Field.clean` (the declarative
constraints: `required`, `min_length`, `max_length`, the email validator,
the `FileField` checks) and then, only when that succeeded, the custom
`clean_<field>` method.  Each failing step contributes its messages to
`form.errors` under the field name and removes the field from
`cleaned_data`; a field whose declarative clean failed never reaches its
custom clean method.  `Except (List String) α` models the outcome of one field.
-/

/-- An uploaded file as Django presents it to a form: name, byte size and
the declared MIME type. -/
structure UploadedFile where
  name : String
  size : Nat
  content_type : String
  deriving DecidableEq

/-- Declarative clean of the `username` field shared by both forms:
`CharField(max_length=150, required=True, min_length=3)` with the custom
error messages of `forms.py`.  `CharField` strips the raw value
(`strip=True` default) and treats a missing or empty value as `""`. -/
def cleanUsernameField (raw : Option String) : Except (List String) String :=
  let v := pyStrip (raw.getD "")
  if v = "" then .error ["Username is required"]
  else if v.length < 3 then .error ["Username must be at least 3 characters long"]
  else if 150 < v.length then .error ["Username cannot exceed 150 characters"]
  else .ok v

/-- Declarative clean of the `email` field of both forms:
`EmailField(required=True)`.  The Django email validator is an external
collaborator, passed as the predicate `emailValid`. -/
def cleanEmailField (emailValid : String → Bool) (raw : Option String) :
    Except (List String) String :=
  let v := pyStrip (raw.getD "")
  if v = "" then .error ["Email is required"]
  else if emailValid v then .ok v
  else .error ["Please enter a valid email address"]

/-- Declarative clean of the `password` field of `URLEncodedForm`:
`CharField(required=True, min_length=8)`. -/
def cleanPasswordField (raw : Option String) : Except (List String) String :=
  let v := pyStrip (raw.getD "")
  if v = "" then .error ["Password is required"]
  else if v.length < 8 then .error ["Password must be at least 8 characters long"]
  else .ok v

/-- Declarative clean of the `bio` field of `URLEncodedForm`:
`CharField(required=False, max_length=500)`. -/
def cleanBioField (raw : Option String) : Except (List String) String :=
  let v := pyStrip (raw.getD "")
  if v = "" then .ok ""
  else if 500 < v.length then .error ["Bio cannot exceed 500 characters"]
  else .ok v

/-- Declarative clean of the `avatar` field of `MultipartForm`:
`FileField(required=False)`.  Django `FileField` defaults to
`allow_empty_file=False`, so `FileField.to_python` rejects a file whose
size is zero with the default message `The submitted file is empty.`; a
file with an empty name is rejected with the overridden `invalid`
message. -/
def fileFieldCleanAvatar (raw : Option UploadedFile) :
    Except (List String) (Option UploadedFile) :=
  match raw with
  | none => .ok none
  | some f =>
    if f.name = "" then .error ["Please upload a valid file"]
    else if f.size = 0 then .error ["The submitted file is empty."]
    else .ok (some f)

/-- The MIME whitelist of `MultipartForm.clean_avatar`. -/
def allowedTypes : List String := ["image/jpeg", "image/png", "image/gif", "image/webp"]

/-- Error message raised by `clean_avatar` for an oversized file. -/
def sizeErrMsg : String := "File size cannot exceed 5MB"

/-- Error message raised by `clean_avatar` for a non-whitelisted MIME type
(the f-string with the joined whitelist). -/
def invalidTypeErrMsg : String :=
  "Invalid file type. Allowed types: image/jpeg, image/png, image/gif, image/webp"

/-- Custom clean method `MultipartForm.clean_avatar`, line for line: the
`if avatar:` truthiness test (Python `File.__bool__` is `bool(self.name)`),
then the size check, then the MIME whitelist check; the first failing check
raises at once. -/
def clean_avatar (avatar : Option UploadedFile) :
    Except (List String) (Option UploadedFile) :=
  match avatar with
  | none => .ok none
  | some f =>
    if f.name = "" then .ok (some f)
    else if 5 * 1024 * 1024 < f.size then .error [sizeErrMsg]
    else if allowedTypes.contains f.content_type then .ok (some f)
    else .error [invalidTypeErrMsg]

/-- Error message raised by `clean_username` for a bad character set. -/
def charsetErrMsg : String := "Username can only contain letters, numbers, and underscores"

/-- Custom clean method `clean_username`, identical in both forms:
`if not username.replace("_", "").isalnum(): raise`. -/
def clean_username (username : String) : Except (List String) String :=
  if username = "" then .ok username
  else if pyIsAlnumL (removeUnderscores username) then .ok username
  else .error [charsetErrMsg]

/-- Error message raised by `clean_password` for an all-numeric password. -/
def numericErrMsg : String := "Password cannot be entirely numeric"

/-- Error message raised by `clean_password` for a single-case password. -/
def mixedCaseErrMsg : String := "Password must contain both uppercase and lowercase letters"

/-- Custom clean method `URLEncodedForm.clean_password`: the all-numeric
check first, then the mixed-case check
(`password.lower() == password or password.upper() == password`). -/
def clean_password (password : String) : Except (List String) String :=
  if password = "" then .ok password
  else if pyIsDigit password then .error [numericErrMsg]
  else if pyLower password = password ∨ pyUpper password = password then
    .error [mixedCaseErrMsg]
  else .ok password

/-- Chain a declarative field clean with the custom clean method of the field:
the custom method runs only when the declarative clean succeeded, exactly
as in Django `_clean_fields`. -/
def runField {α : Type} (fieldRes : Except (List String) α)
    (custom : α → Except (List String) α) : Except (List String) α :=
  match fieldRes with
  | .error es => .error es
  | .ok v => custom v

/-- Errors contributed by one field to `form.errors`. -/
def collectErrs {α : Type} (name : String) : Except (List String) α →
    List (String × List String)
  | .error es => [(name, es)]
  | .ok _ => []

/-- Full clean of `MultipartForm` (fields in declaration order `username`,
`email`, `avatar`): `.ok` carries `cleaned_data`, `.error` carries
`form.errors` as an ordered field-to-messages map. -/
def multipartValidate (emailValid : String → Bool)
    (post : String → Option String) (files : String → Option UploadedFile) :
    Except (List (String × List String)) (String × String × Option UploadedFile) :=
  let u := runField (cleanUsernameField (post "username")) clean_username
  let e := cleanEmailField emailValid (post "email")
  let a := runField (fileFieldCleanAvatar (files "avatar")) clean_avatar
  match u, e, a with
  | .ok u', .ok e', .ok a' => .ok (u', e', a')
  | _, _, _ => .error (collectErrs "username" u ++ collectErrs "email" e ++
      collectErrs "avatar" a)

/-- Full clean of `URLEncodedForm` (fields in declaration order `username`,
`email`, `password`, `bio`). -/
def urlencodedValidate (emailValid : String → Bool)
    (post : String → Option String) :
    Except (List (String × List String)) (String × String × String × String) :=
  let u := runField (cleanUsernameField (post "username")) clean_username
  let e := cleanEmailField emailValid (post "email")
  let p := runField (cleanPasswordField (post "password")) clean_password
  let b := cleanBioField (post "bio")
  match u, e, p, b with
  | .ok u', .ok e', .ok p', .ok b' => .ok (u', e', p', b')
  | _, _, _, _ => .error (collectErrs "username" u ++ collectErrs "email" e ++
      collectErrs "password" p ++ collectErrs "bio" b)

/-! ### The pydantic schema of `schemas.py` -/

/-- Parsed JSON values, the results of the external `json.loads`.  Numbers
are modelled by integers, which covers every input under study. -/
inductive Json where
  | null
  | bool (b : Bool)
  | num (n : Int)
  | str (s : String)
  | arr (xs : List Json)
  | obj (kvs : List (String × Json))

mutual

/-- Serialization of a parsed JSON value back into a response body. -/
def jsonToPyVal : Json → PyVal
  | .null => .null
  | .bool b => .bool b
  | .num n => .num n
  | .str s => .str s
  | .arr xs => .list (jsonListToPyVal xs)
  | .obj kvs => .dict (jsonObjToPyVal kvs)

/-- Serialization of a list of parsed JSON values. -/
def jsonListToPyVal : List Json → List PyVal
  | [] => []
  | j :: js => jsonToPyVal j :: jsonListToPyVal js

/-- Serialization of the entries of a parsed JSON object. -/
def jsonObjToPyVal : List (String × Json) → List (String × PyVal)
  | [] => []
  | (k, j) :: kvs => (k, jsonToPyVal j) :: jsonObjToPyVal kvs

end

/-- Lookup of a key in a parsed JSON object. -/
def jsonLookup (k : String) : List (String × Json) → Option Json
  | [] => none
  | (k', v) :: rest => if k' = k then some v else jsonLookup k rest

/-- A validated `JSONDataSchema` value. -/
structure JSONData where
  name : String
  email : String
  age : Int
  deriving DecidableEq

/-- Errors contributed by one schema field. -/
def schemaErrs {α : Type} : Except (String × String) α → List (String × String)
  | .error e => [e]
  | .ok _ => []

/-- Validation of `JSONDataSchema` against a JSON object: `name` a string
of 2 to 100 characters, `email` a string the email validator accepts,
`age` an integer between 0 and 150; extra keys are ignored, and pydantic
collects the errors of every failing field (here as field/message pairs,
abbreviating the loc/msg/type dictionaries of `e.errors()`). -/
def validateSchema (emailValid : String → Bool) (kvs : List (String × Json)) :
    Except (List (String × String)) JSONData :=
  let nameR : Except (String × String) String :=
    match jsonLookup "name" kvs with
    | some (.str s) =>
      if s.length < 2 then .error ("name", "String should have at least 2 characters")
      else if 100 < s.length then .error ("name", "String should have at most 100 characters")
      else .ok s
    | some _ => .error ("name", "Input should be a valid string")
    | none => .error ("name", "Field required")
  let emailR : Except (String × String) String :=
    match jsonLookup "email" kvs with
    | some (.str s) =>
      if emailValid s then .ok s
      else .error ("email", "value is not a valid email address")
    | some _ => .error ("email", "Input should be a valid string")
    | none => .error ("email", "Field required")
  let ageR : Except (String × String) Int :=
    match jsonLookup "age" kvs with
    | some (.num n) =>
      if n < 0 then .error ("age", "Input should be greater than or equal to 0")
      else if 150 < n then .error ("age", "Input should be less than or equal to 150")
      else .ok n
    | some _ => .error ("age", "Input should be a valid integer")
    | none => .error ("age", "Field required")
  match nameR, emailR, ageR with
  | .ok n, .ok e, .ok a => .ok ⟨n, e, a⟩
  | _, _, _ => .error (schemaErrs nameR ++ schemaErrs emailR ++ schemaErrs ageR)

/-! ### The request handlers of `views.py`

Every handler receives the declared content type of the request
(`request.content_type`) and its decoded body; the external library
functions it calls are explicit parameters.  The body lists reproduce the
dictionary literals of `views.py` key for key, in source order.
-/

/-- Serialization of `form.errors` into a response body. -/
def errorsToPyVal (errs : List (String × List String)) : PyVal :=
  .dict (errs.map (fun fe => (fe.1, .list (fe.2.map PyVal.str))))

/-- Serialization of the pydantic `e.errors()` list. -/
def pydanticErrorsVal (errs : List (String × String)) : PyVal :=
  .list (errs.map (fun e => .dict [("loc", .list [.str e.1]), ("msg", .str e.2)]))

/-- Handler `handle_urlencoded`: validate `request.POST` against
`URLEncodedForm`; on failure a 400 with `form.errors`, on success a 200
echoing `form.cleaned_data`. -/
def handle_urlencoded (emailValid : String → Bool) (ct : String)
    (post : String → Option String) : Response :=
  match urlencodedValidate emailValid post with
  | .error errs =>
    ⟨400, [("status", .str "error"), ("errors", errorsToPyVal errs),
           ("content_type", .str ct)]⟩
  | .ok (u, e, p, b) =>
    ⟨200, [("status", .str "success"),
           ("form_data", .dict [("username", .str u), ("email", .str e),
                                ("password", .str p), ("bio", .str b)]),
           ("content_type", .str ct)]⟩

/-- Descriptor emitted by `handle_multipart` for a cleaned value with a
`read` attribute. -/
def fileDescriptor (f : UploadedFile) : PyVal :=
  .dict [("name", .str f.name), ("size", .num f.size),
         ("content_type", .str f.content_type)]

/-- The avatar entry of the multipart `form_data`: a file descriptor for an
uploaded file, `None` when the optional field was absent. -/
def avatarVal : Option UploadedFile → PyVal
  | none => .null
  | some f => fileDescriptor f

/-- Handler `handle_multipart`: validate `request.POST` and `request.FILES`
against `MultipartForm`; on success the cleaned values in declaration
order, file values replaced by name/size/content-type descriptors. -/
def handle_multipart (emailValid : String → Bool) (ct : String)
    (post : String → Option String) (files : String → Option UploadedFile) :
    Response :=
  match multipartValidate emailValid post files with
  | .error errs =>
    ⟨400, [("status", .str "error"), ("errors", errorsToPyVal errs),
           ("content_type", .str ct)]⟩
  | .ok (u, e, a) =>
    ⟨200, [("status", .str "success"),
           ("form_data", .dict [("username", .str u), ("email", .str e),
                                ("avatar", avatarVal a)]),
           ("content_type", .str ct)]⟩

/-- The message of the uncaught `TypeError` raised by
`JSONDataSchema(**data)` when `data` is not a mapping. -/
def typeErrorMsg : String := "TypeError: argument after ** must be a mapping"

/-- The response `handle_json` builds once the body parsed to an object:
on schema success the echoed `model_dump`, on a pydantic `ValidationError`
the per-field error list, both echoing the content type. -/
def schemaResponse (ct : String) :
    Except (List (String × String)) JSONData → Response
  | .ok d =>
    ⟨200, [("status", .str "success"),
           ("received", .dict [("name", .str d.name), ("email", .str d.email),
                               ("age", .num d.age)]),
           ("content_type", .str ct)]⟩
  | .error es =>
    ⟨400, [("status", .str "error"), ("errors", pydanticErrorsVal es),
           ("content_type", .str ct)]⟩

/-- Handler `handle_json`: parse the body with `json.loads` (caught:
`json.JSONDecodeError`, modelled by `loads` returning `none`), splat the
result into `JSONDataSchema` (caught: pydantic `ValidationError`), and
echo the validated model.  When the body parses to a non-object JSON value
the `**data` splat raises a `TypeError` that no `except` clause catches:
the handler faults, modelled by `Except.error`. -/
def handle_json (emailValid : String → Bool) (loads : String → Option Json)
    (ct : String) (body : String) : Except String Response :=
  match loads body with
  | none =>
    .ok ⟨400, [("status", .str "error"), ("error", .str "Invalid JSON"),
               ("content_type", .str ct)]⟩
  | some (.obj kvs) => .ok (schemaResponse ct (validateSchema emailValid kvs))
  | some _ => .error typeErrorMsg

/-- The non-empty lines of an NDJSON body:
`request.body.decode("utf-8").strip().split("\n")` filtered by `if line`. -/
def ndjsonLines (body : String) : List String :=
  ((splitNl (stripList body.data)).filter (fun l => l ≠ [])).map (fun l => ⟨l⟩)

/-- The list comprehension of `handle_ndjson`: parse the lines in order;
a raising `json.loads` aborts the whole comprehension, so one bad line
yields `none` with no partial list. -/
def parseLines (loads : String → Option Json) : List String → Option (List Json)
  | [] => some []
  | l :: ls =>
    match loads l, parseLines loads ls with
    | some v, some vs => some (v :: vs)
    | _, _ => none

/-- Handler `handle_ndjson`: parse every non-empty line of the stripped
body with `json.loads`; all lines parse or the `except` clause answers a
bare `Invalid NDJSON` error. -/
def handle_ndjson (loads : String → Option Json) (ct : String) (body : String) :
    Response :=
  match parseLines loads (ndjsonLines body) with
  | some vs =>
    ⟨200, [("status", .str "success"), ("lines_count", .num vs.length),
           ("data", .list (vs.map jsonToPyVal)), ("content_type", .str ct)]⟩
  | none => ⟨400, [("error", .str "Invalid NDJSON")]⟩

/-- Handler `handle_text_plain`: echo the decoded body and its length. -/
def handle_text_plain (ct : String) (body : String) : Response :=
  ⟨200, [("status", .str "success"), ("received", .str body),
         ("length", .num body.length), ("content_type", .str ct)]⟩

/-- Handler `handle_html`: echo the decoded body and its length. -/
def handle_html (ct : String) (body : String) : Response :=
  ⟨200, [("status", .str "success"), ("received", .str body),
         ("length", .num body.length), ("content_type", .str ct)]⟩

/-- A direct child of the XML root: its tag and its text content
(`None` for an element with no text, as `ElementTree` reports it). -/
structure XmlChild where
  tag : String
  text : Option String
  deriving DecidableEq

/-- The parsed XML root as `ET.fromstring` returns it. -/
structure XmlElem where
  tag : String
  children : List XmlChild
  deriving DecidableEq

/-- The serialized text of one child: `child.text`, with `None` as JSON
null. -/
def childText : Option String → PyVal
  | none => .null
  | some s => .str s

/-- Python dict insertion: an existing key keeps its position and takes the
new value, a new key is appended. -/
def pyDictInsert (k : String) (v : PyVal) : List (String × PyVal) →
    List (String × PyVal)
  | [] => [(k, v)]
  | (k', v') :: rest =>
    if k' = k then (k', v) :: rest else (k', v') :: pyDictInsert k v rest

/-- The dict comprehension `{child.tag: child.text for child in root}`:
children in document order, later entries overwriting earlier ones. -/
def xmlData (cs : List XmlChild) : List (String × PyVal) :=
  cs.foldl (fun d c => pyDictInsert c.tag (childText c.text) d) []

/-- Handler `handle_xml`: parse the body with `ET.fromstring` (caught:
`ET.ParseError`, modelled by `fromstring` returning `none`), and answer
with the root tag and the child dict. -/
def handle_xml (fromstring : String → Option XmlElem) (ct : String)
    (body : String) : Response :=
  match fromstring body with
  | some root =>
    ⟨200, [("status", .str "success"), ("root_tag", .str root.tag),
           ("data", .dict (xmlData root.children)), ("content_type", .str ct)]⟩
  | none => ⟨400, [("error", .str "Invalid XML")]⟩

/-- Handler `handle_svg`: echo the decoded body and its length. -/
def handle_svg (ct : String) (body : String) : Response :=
  ⟨200, [("status", .str "success"), ("received", .str body),
         ("length", .num body.length), ("content_type", .str ct)]⟩

/-- Handler `handle_binary`: the raw byte count and the first ten bytes as
numbers, in the source key order. -/
def handle_binary (ct : String) (bytes : List Nat) : Response :=
  ⟨200, [("status", .str "success"), ("size", .num bytes.length),
         ("content_type", .str ct),
         ("first_bytes", .list ((bytes.take 10).map (fun b => .num b)))]⟩

/-- The last direct child of the root carrying a given tag, if any. -/
def lastWithTag (t : String) : List XmlChild → Option XmlChild
  | [] => none
  | c :: cs =>
    match lastWithTag t cs with
    | some c' => some c'
    | none => if c.tag = t then some c else none

/-! ### Concrete collaborators used by the examples

Each demonstration function stands in for an external library call and
agrees with the real library on every input it is applied to in this file.
-/

/-- Demonstration email validator; Django and pydantic both accept
`a@b.com`. -/
def demoEmailValid : String → Bool := fun s => s = "a@b.com"

/-- A POST payload with a valid username and email. -/
def demoPost : String → Option String := fun k =>
  if k = "username" then some "abc"
  else if k = "email" then some "a@b.com"
  else none

/-- A POST payload whose username has a bad character and whose password is
all digits, both fields otherwise present and the email valid. -/
def demoBadBothPost : String → Option String := fun k =>
  if k = "username" then some "ab!"
  else if k = "email" then some "a@b.com"
  else if k = "password" then some "12345678"
  else none

/-- An avatar that is both oversized (6 MiB) and of a non-whitelisted MIME
type. -/
def bigBadAvatar : UploadedFile := ⟨"x.txt", 6 * 1024 * 1024, "text/plain"⟩

/-- FILES payload carrying `bigBadAvatar`. -/
def demoFilesBig : String → Option UploadedFile := fun k =>
  if k = "avatar" then some bigBadAvatar else none

/-- FILES payload carrying a zero-byte avatar of a whitelisted MIME type. -/
def demoFilesEmpty : String → Option UploadedFile := fun k =>
  if k = "avatar" then some ⟨"a.png", 0, "image/png"⟩ else none

/-- FILES payload carrying a zero-byte avatar of an arbitrary MIME type. -/
def demoFilesZero (tp : String) : String → Option UploadedFile := fun k =>
  if k = "avatar" then some ⟨"a.png", 0, tp⟩ else none

/-- FILES payload carrying an avatar of arbitrary size and a whitelisted
MIME type. -/
def demoFilesN (n : Nat) : String → Option UploadedFile := fun k =>
  if k = "avatar" then some ⟨"a.png", n, "image/png"⟩ else none

/-- Demonstration stand-in for `json.loads` agreeing with it on the three
line strings it is applied to: the two one-field objects parse and
`not-json` raises `json.JSONDecodeError`. -/
def demoLoads : String → Option Json := fun s =>
  if s = "\x7b\"a\":1\x7d" then some (.obj [("a", .num 1)])
  else if s = "\x7b\"b\":2\x7d" then some (.obj [("b", .num 2)])
  else none

/-- Demonstration stand-in for `json.loads` agreeing with it on the one
body it is applied to: `[1, 2]` parses to a JSON array, not an object. -/
def demoLoadsArr : String → Option Json := fun s =>
  if s = "[1, 2]" then some (.arr [.num 1, .num 2]) else none

/-- Demonstration stand-in for `ET.fromstring` agreeing with it on the one
body it is applied to: the root has three children in document order, two
of them sharing the tag `a`, and `<b/>` has text `None`. -/
def demoFromstring : String → Option XmlElem := fun s =>
  if s = "<root><a>1</a><b/><a>2</a></root>" then
    some ⟨"root", [⟨"a", some "1"⟩, ⟨"b", none⟩, ⟨"a", some "2"⟩]⟩
  else none

/-! ## Helper lemmas -/

/-- A list with a member is not empty. -/
theorem isEmpty_false_of_mem {α : Type} {l : List α} {a : α} (h : a ∈ l) :
    l.isEmpty = false := by
  cases l with
  | nil => cases h
  | cons x xs => rfl

/-- `List.all` is false as soon as one member fails the predicate. -/
theorem all_false_of_mem {α : Type} {p : α → Bool} {l : List α} {a : α}
    (h : a ∈ l) (hp : p a = false) : l.all p = false := by
  cases hall : l.all p with
  | false => rfl
  | true => exact absurd (List.all_eq_true.mp hall a h) (by simp [hp])

/-- `List.dropWhile` drains a list whose members all satisfy the predicate. -/
theorem dropWhile_eq_nil_of_all {α : Type} {p : α → Bool} :
    ∀ l : List α, (∀ c ∈ l, p c = true) → l.dropWhile p = [] := by
  intro l h
  induction l with
  | nil => rfl
  | cons a as ih =>
    rw [List.dropWhile_cons, if_pos (h a (List.mem_cons_self a as))]
    exact ih (fun c hc => h c (List.mem_cons_of_mem a hc))

/-- A map whose function fixes every member is the identity. -/
theorem map_eq_self_of_fixed {α : Type} {f : α → α} :
    ∀ l : List α, (∀ c ∈ l, f c = c) → l.map f = l := by
  intro l h
  induction l with
  | nil => rfl
  | cons a as ih =>
    rw [List.map_cons, h a (List.mem_cons_self a as),
        ih (fun c hc => h c (List.mem_cons_of_mem a hc))]

/-- `str.upper` fixes a string with no lowercase letter. -/
theorem pyUpper_eq_self {s : String} (h : ∀ c ∈ s.data, c.isLower = false) :
    pyUpper s = s := by
  cases s with
  | mk l =>
    show String.mk (l.map pyUpperChar) = String.mk l
    rw [map_eq_self_of_fixed l (fun c hc => by simp [pyUpperChar, h c hc])]

/-- `str.lower` fixes a string with no uppercase letter. -/
theorem pyLower_eq_self {s : String} (h : ∀ c ∈ s.data, c.isUpper = false) :
    pyLower s = s := by
  cases s with
  | mk l =>
    show String.mk (l.map pyLowerChar) = String.mk l
    rw [map_eq_self_of_fixed l (fun c hc => by simp [pyLowerChar, h c hc])]

/-- The NDJSON comprehension preserves the line count when every line
parses. -/
theorem parseLines_length (loads : String → Option Json) :
    ∀ (ls : List String) (vs : List Json), parseLines loads ls = some vs →
      vs.length = ls.length := by
  intro ls
  induction ls with
  | nil =>
    intro vs h
    cases h
    rfl
  | cons l ls ih =>
    intro vs h
    unfold parseLines at h
    cases hl : loads l with
    | none => rw [hl] at h; cases h
    | some v =>
      cases hrest : parseLines loads ls with
      | none => rw [hl, hrest] at h; cases h
      | some vs' =>
        rw [hl, hrest] at h
        cases h
        simp [ih vs' hrest]

/-- Lookup after a Python dict insertion: the inserted key answers the new
value, every other key is untouched. -/
theorem pyLookup_pyDictInsert (t k : String) (v : PyVal) :
    ∀ d, pyLookup t (pyDictInsert k v d) =
      if k = t then some v else pyLookup t d := by
  intro d
  induction d with
  | nil => simp [pyDictInsert, pyLookup]
  | cons p rest ih =>
    obtain ⟨k', v'⟩ := p
    by_cases h1 : k' = k
    · subst h1
      by_cases h2 : k' = t
      · subst h2
        simp [pyDictInsert, pyLookup]
      · simp [pyDictInsert, pyLookup, h2]
    · by_cases h2 : k' = t
      · subst h2
        have : ¬ k = k' := fun h => h1 h.symm
        simp [pyDictInsert, pyLookup, h1, this]
      · simp [pyDictInsert, pyLookup, h1, h2, ih]

/-- Lookup in the XML child dict: the last child with the tag decides the
value; a tag no child carries falls through to the initial dict. -/
theorem pyLookup_xmlFold (t : String) :
    ∀ (cs : List XmlChild) (d : List (String × PyVal)),
      pyLookup t (cs.foldl (fun d c => pyDictInsert c.tag (childText c.text) d) d) =
        (match lastWithTag t cs with
         | some c => some (childText c.text)
         | none => pyLookup t d) := by
  intro cs
  induction cs with
  | nil => intro d; rfl
  | cons c0 cs ih =>
    intro d
    rw [List.foldl_cons, ih]
    cases hm : lastWithTag t cs with
    | some c' => simp [lastWithTag, hm]
    | none =>
      simp only [lastWithTag, hm]
      rw [pyLookup_pyDictInsert]
      by_cases h : c0.tag = t
      · simp [h]
      · simp [h]

/-! ## The claims -/

/-- C3 is refuted at a concrete input: the avatar of `demoFilesBig` is both
over 5 MiB and of MIME type `text/plain`, yet form validation reports the
size error alone, not both errors; likewise the password `12345678`, which
is both all-numeric and single-case, yields only the all-numeric error. -/
theorem C3_counterexample :
    multipartValidate demoEmailValid demoPost demoFilesBig =
      .error [("avatar", [sizeErrMsg])]
  ∧ clean_password "12345678" = .error [numericErrMsg] := ⟨rfl, rfl⟩

/-- C3 (amended): validation aggregates violations across distinct fields,
but within the custom clean method of one field it is fail-fast: an avatar over
5 MiB yields exactly the size error whatever its MIME type, an all-numeric
password yields exactly the all-numeric error, while a form with a bad
username and a bad password reports both fields. -/
theorem C3_intra_field_fail_fast (f : UploadedFile) (p : String)
    (hname : f.name ≠ "") (hsize : 5 * 1024 * 1024 < f.size)
    (hne : p.data ≠ []) (hdig : ∀ c ∈ p.data, c.isDigit = true) :
    clean_avatar (some f) = .error [sizeErrMsg]
  ∧ clean_password p = .error [numericErrMsg]
  ∧ urlencodedValidate demoEmailValid demoBadBothPost =
      .error [("username", [charsetErrMsg]), ("password", [numericErrMsg])] := by
  refine ⟨?_, ?_, rfl⟩
  · simp only [clean_avatar]
    rw [if_neg hname, if_pos hsize]
  · have hp : p ≠ "" := by
      intro h
      subst h
      exact hne rfl
    have hd : pyIsDigit p = true := by
      unfold pyIsDigit
      rw [Bool.and_eq_true]
      refine ⟨?_, List.all_eq_true.mpr hdig⟩
      cases hl : p.data with
      | nil => exact absurd hl hne
      | cons c cs => rfl
    simp only [clean_password]
    rw [if_neg hp, if_pos hd]

/-- Witness for C3 (amended) at the 6 MiB `text/plain` avatar and the
all-numeric password `999999999`. -/
theorem C3_intra_field_fail_fast_witness :
    clean_avatar (some bigBadAvatar) = .error [sizeErrMsg]
  ∧ clean_password "999999999" = .error [numericErrMsg]
  ∧ urlencodedValidate demoEmailValid demoBadBothPost =
      .error [("username", [charsetErrMsg]), ("password", [numericErrMsg])] :=
  C3_intra_field_fail_fast bigBadAvatar "999999999" (by decide) (by decide)
    (by decide) (by decide)

/-- C4 is refuted at a concrete input: the avatar of declared MIME type
`text/plain` and size 6 MiB makes validation fail with the size error, not
the invalid-file-type error. -/
theorem C4_counterexample :
    clean_avatar (some bigBadAvatar) = .error [sizeErrMsg]
  ∧ allowedTypes.contains bigBadAvatar.content_type = false
  ∧ sizeErrMsg ≠ invalidTypeErrMsg := ⟨rfl, rfl, by decide⟩

/-- C4 (amended): an avatar with a non-whitelisted declared MIME type
fails with the invalid-file-type error provided its size does not exceed
5 MiB; an oversized file trips the size check first. -/
theorem C4_invalid_type_needs_size_ok (f : UploadedFile)
    (hname : f.name ≠ "") (hsize : f.size ≤ 5 * 1024 * 1024)
    (htype : allowedTypes.contains f.content_type = false) :
    clean_avatar (some f) = .error [invalidTypeErrMsg] := by
  simp only [clean_avatar]
  rw [if_neg hname, if_neg (by omega : ¬ 5 * 1024 * 1024 < f.size),
      if_neg (fun hcontra => by rw [htype] at hcontra; cases hcontra)]

/-- Witness for C4 (amended) at a ten-byte `text/plain` avatar. -/
theorem C4_invalid_type_needs_size_ok_witness :
    clean_avatar (some ⟨"a.txt", 10, "text/plain"⟩) = .error [invalidTypeErrMsg] :=
  C4_invalid_type_needs_size_ok ⟨"a.txt", 10, "text/plain"⟩ (by decide) (by decide)
    (by decide)

/-- C5 is refuted at a concrete input: a multipart submission with a valid
username and email and a zero-byte `image/png` avatar fails validation,
because Django `FileField` defaults to `allow_empty_file=False` and
rejects the empty upload before any custom rule runs. -/
theorem C5_counterexample :
    multipartValidate demoEmailValid demoPost demoFilesEmpty =
      .error [("avatar", ["The submitted file is empty."])] := rfl

/-- C5 (amended): the avatar field imposes a one-byte minimum, not none: a
zero-byte upload is rejected with the empty-file error of the field whatever
its MIME type, and any avatar of one byte up to 5 MiB with a whitelisted
MIME type passes validation together with the valid username and email. -/
theorem C5_min_size_one_byte (n : Nat) (tp : String)
    (h1 : 1 ≤ n) (h2 : n ≤ 5 * 1024 * 1024) :
    multipartValidate demoEmailValid demoPost (demoFilesZero tp) =
      .error [("avatar", ["The submitted file is empty."])]
  ∧ multipartValidate demoEmailValid demoPost (demoFilesN n) =
      .ok ("abc", "a@b.com", some ⟨"a.png", n, "image/png"⟩) := by
  have hu : runField (cleanUsernameField (demoPost "username")) clean_username =
      .ok "abc" := rfl
  have he : cleanEmailField demoEmailValid (demoPost "email") = .ok "a@b.com" := rfl
  constructor
  · have hfa : demoFilesZero tp "avatar" = some ⟨"a.png", 0, tp⟩ := rfl
    have ha : runField (fileFieldCleanAvatar (demoFilesZero tp "avatar"))
        clean_avatar = .error ["The submitted file is empty."] := by
      rw [hfa]
      simp [fileFieldCleanAvatar, runField]
    simp only [multipartValidate]
    rw [hu, he, ha]
    rfl
  · have hfa : demoFilesN n "avatar" = some ⟨"a.png", n, "image/png"⟩ := rfl
    have hn0 : ¬ n = 0 := by omega
    have hns : ¬ 5 * 1024 * 1024 < n := by omega
    have ha : runField (fileFieldCleanAvatar (demoFilesN n "avatar"))
        clean_avatar = .ok (some ⟨"a.png", n, "image/png"⟩) := by
      rw [hfa]
      simp [fileFieldCleanAvatar, runField, clean_avatar, hn0, hns, allowedTypes]
    simp only [multipartValidate]
    rw [hu, he, ha]

/-- Witness for C5 (amended) at a one-byte avatar. -/
theorem C5_min_size_one_byte_witness :
    multipartValidate demoEmailValid demoPost (demoFilesZero "text/plain") =
      .error [("avatar", ["The submitted file is empty."])]
  ∧ multipartValidate demoEmailValid demoPost (demoFilesN 1) =
      .ok ("abc", "a@b.com", some ⟨"a.png", 1, "image/png"⟩) :=
  C5_min_size_one_byte 1 "text/plain" (by decide) (by decide)

/-- C6 is refuted at a concrete input: the username `___` is 3 to 150
characters long and consists only of underscores and digits, yet the
check fails, because removing the underscores leaves the empty string and
Python `"".isalnum()` is false. -/
theorem C6_counterexample :
    clean_username "___" = .error [charsetErrMsg]
  ∧ 3 ≤ ("___" : String).length
  ∧ (∀ c ∈ ("___" : String).data, c = '_' ∨ c.isDigit = true) :=
  ⟨rfl, by decide, by decide⟩

/-- C6 (amended): a username of 3 to 150 characters consisting only of
underscores and digits passes the alnum-plus-underscore check provided at
least one character is not an underscore; a string of underscores alone
fails it. -/
theorem C6_needs_alnum_char (s : String)
    (hmin : 3 ≤ s.length) (_hmax : s.length ≤ 150)
    (hchars : ∀ c ∈ s.data, c = '_' ∨ c.isDigit = true)
    (hnotall : ∃ c ∈ s.data, c ≠ '_') :
    clean_username s = .ok s := by
  have hne : s ≠ "" := by
    intro h
    subst h
    simp [String.length] at hmin
  have halnum : pyIsAlnumL (removeUnderscores s) = true := by
    obtain ⟨c, hc, hcu⟩ := hnotall
    have hcd : c.isDigit = true := (hchars c hc).resolve_left hcu
    have hmem : c ∈ s.data.filter (fun c => c ≠ '_') :=
      List.mem_filter.mpr ⟨hc, by simpa using hcu⟩
    unfold pyIsAlnumL removeUnderscores
    rw [Bool.and_eq_true]
    refine ⟨by rw [isEmpty_false_of_mem hmem]; rfl, ?_⟩
    rw [List.all_eq_true]
    intro x hx
    have hxs := List.mem_filter.mp hx
    rcases hchars x hxs.1 with h | h
    · exact absurd h (by simpa using hxs.2)
    · simp [pyIsAlnumChar, h]
  simp only [clean_username]
  rw [if_neg hne, if_pos halnum]

/-- Witness for C6 (amended) at the username `_1_`. -/
theorem C6_needs_alnum_char_witness : clean_username "_1_" = .ok "_1_" :=
  C6_needs_alnum_char "_1_" (by decide) (by decide) (by decide)
    ⟨'1', by decide, by decide⟩

/-- C7: the password `password` fails `clean_password` with the mixed-case
error, the password `Abcdefgh` passes it, and every ASCII password of
length at least 8 that is not entirely numeric and has no lowercase or no
uppercase letter fails with the mixed-case error. -/
theorem C7_single_case_password_fails (s : String)
    (_hlen : 8 ≤ s.length)
    (_hascii : ∀ c ∈ s.data, c.toNat < 128)
    (hnd : ∃ c ∈ s.data, c.isDigit = false)
    (hcase : (∀ c ∈ s.data, c.isLower = false) ∨ (∀ c ∈ s.data, c.isUpper = false)) :
    clean_password "password" = .error [mixedCaseErrMsg]
  ∧ clean_password "Abcdefgh" = .ok "Abcdefgh"
  ∧ clean_password s = .error [mixedCaseErrMsg] := by
  refine ⟨rfl, rfl, ?_⟩
  obtain ⟨c, hc, hcd⟩ := hnd
  have hne : s ≠ "" := by
    intro h
    subst h
    simp at hc
  have hdig : pyIsDigit s = false := by
    unfold pyIsDigit
    rw [all_false_of_mem hc hcd]
    exact Bool.and_false _
  have hfix : pyLower s = s ∨ pyUpper s = s := by
    rcases hcase with h | h
    · exact Or.inr (pyUpper_eq_self h)
    · exact Or.inl (pyLower_eq_self h)
  simp only [clean_password]
  rw [if_neg hne, if_neg (by simp [hdig]), if_pos hfix]

/-- Witness for C7 at the all-uppercase password `ABCDEFGH`. -/
theorem C7_single_case_password_fails_witness :
    clean_password "password" = .error [mixedCaseErrMsg]
  ∧ clean_password "Abcdefgh" = .ok "Abcdefgh"
  ∧ clean_password "ABCDEFGH" = .error [mixedCaseErrMsg] :=
  C7_single_case_password_fails "ABCDEFGH" (by decide) (by decide)
    ⟨'A', by decide, by decide⟩ (Or.inl (by decide))

/-- C8: the NDJSON handler is all-or-nothing: when every non-empty line
parses it answers success with `lines_count` equal to the number of
non-empty lines and the parsed values in input order; when any line fails
it answers the single `Invalid NDJSON` error with HTTP 400 and no partial
list — shown in general and at the two bodies named by the spec, with the
demonstration parse agreeing with `json.loads` on the lines involved. -/
theorem C8_ndjson_all_or_nothing (loads : String → Option Json) (ct body : String) :
    (∀ vs, parseLines loads (ndjsonLines body) = some vs →
        handle_ndjson loads ct body =
          ⟨200, [("status", .str "success"), ("lines_count", .num vs.length),
                 ("data", .list (vs.map jsonToPyVal)), ("content_type", .str ct)]⟩
      ∧ vs.length = (ndjsonLines body).length)
  ∧ (parseLines loads (ndjsonLines body) = none →
        handle_ndjson loads ct body = ⟨400, [("error", .str "Invalid NDJSON")]⟩)
  ∧ handle_ndjson demoLoads ct "\x7b\"a\":1\x7d\n\x7b\"b\":2\x7d\n" =
      ⟨200, [("status", .str "success"), ("lines_count", .num 2),
             ("data", .list [.dict [("a", .num 1)], .dict [("b", .num 2)]]),
             ("content_type", .str ct)]⟩
  ∧ handle_ndjson demoLoads ct "\x7b\"a\":1\x7d\nnot-json\n" =
      ⟨400, [("error", .str "Invalid NDJSON")]⟩ := by
  refine ⟨?_, ?_, rfl, rfl⟩
  · intro vs h
    refine ⟨?_, parseLines_length loads _ vs h⟩
    simp only [handle_ndjson]
    rw [h]
  · intro h
    simp only [handle_ndjson]
    rw [h]

/-- Witness for C8 at a one-line body that parses and a one-line body that
does not. -/
theorem C8_ndjson_all_or_nothing_witness :
    (handle_ndjson demoLoads "ct" "\x7b\"a\":1\x7d" =
        ⟨200, [("status", .str "success"), ("lines_count", .num 1),
               ("data", .list [.dict [("a", .num 1)]]), ("content_type", .str "ct")]⟩
      ∧ [Json.obj [("a", Json.num 1)]].length = (ndjsonLines "\x7b\"a\":1\x7d").length)
  ∧ handle_ndjson demoLoads "ct" "nope" = ⟨400, [("error", .str "Invalid NDJSON")]⟩ := by
  obtain ⟨h1, _, _, _⟩ := C8_ndjson_all_or_nothing demoLoads "ct" "\x7b\"a\":1\x7d"
  obtain ⟨_, h2, _, _⟩ := C8_ndjson_all_or_nothing demoLoads "ct" "nope"
  exact ⟨h1 [Json.obj [("a", Json.num 1)]] rfl, h2 rfl⟩

/-- C9: in the XML success payload the data dict is built from the direct
children in document order with later children overwriting earlier ones —
the value under a tag is the text of the last child carrying that tag —
and a child with no text maps to JSON null, shown in general and on the
concrete body `<root><a>1</a><b/><a>2</a></root>` whose parse agrees with
`ET.fromstring`. -/
theorem C9_xml_last_child_wins (cs : List XmlChild) (t : String) (c : XmlChild)
    (h : lastWithTag t cs = some c) :
    pyLookup t (xmlData cs) = some (childText c.text)
  ∧ childText none = PyVal.null
  ∧ handle_xml demoFromstring "application/xml" "<root><a>1</a><b/><a>2</a></root>" =
      ⟨200, [("status", .str "success"), ("root_tag", .str "root"),
             ("data", .dict [("a", .str "2"), ("b", .null)]),
             ("content_type", .str "application/xml")]⟩ := by
  refine ⟨?_, rfl, rfl⟩
  have hfold := pyLookup_xmlFold t cs []
  rw [h] at hfold
  simpa [xmlData] using hfold

/-- Witness for C9 at two children sharing the tag `a`. -/
theorem C9_xml_last_child_wins_witness :
    pyLookup "a" (xmlData [⟨"a", some "1"⟩, ⟨"a", some "2"⟩]) =
      some (childText (some "2")) :=
  (C9_xml_last_child_wins [⟨"a", some "1"⟩, ⟨"a", some "2"⟩] "a"
    ⟨"a", some "2"⟩ rfl).1

/-- C10: a body consisting only of whitespace (newlines included) makes
the NDJSON handler answer success with `lines_count` 0 and an empty data
list, never an error, whatever the parse function does. -/
theorem C10_whitespace_only_body (loads : String → Option Json) (ct body : String)
    (h : ∀ c ∈ body.data, pyIsSpaceChar c = true) :
    handle_ndjson loads ct body =
      ⟨200, [("status", .str "success"), ("lines_count", .num 0),
             ("data", .list []), ("content_type", .str ct)]⟩ := by
  have hstrip : stripList body.data = [] := by
    unfold stripList
    rw [dropWhile_eq_nil_of_all body.data h]
    rfl
  have hlines : ndjsonLines body = [] := by
    unfold ndjsonLines
    rw [hstrip]
    rfl
  simp only [handle_ndjson]
  rw [hlines]
  rfl

/-- Witness for C10 at the body of two blank lines. -/
theorem C10_whitespace_only_body_witness :
    handle_ndjson demoLoads "application/x-ndjson" " \n\t\n " =
      ⟨200, [("status", .str "success"), ("lines_count", .num 0),
             ("data", .list []), ("content_type", .str "application/x-ndjson")]⟩ :=
  C10_whitespace_only_body demoLoads "application/x-ndjson" " \n\t\n " (by decide)

/-- C1 is refuted at a concrete input: on the NDJSON body `not-json`
(whose single line `json.loads` rejects) the handler emits a 400 response
that carries neither a `content_type` nor a `status` field. -/
theorem C1_counterexample :
    pyLookup "content_type"
        (handle_ndjson (fun _ => none) "application/x-ndjson" "not-json").body = none
  ∧ pyLookup "status"
        (handle_ndjson (fun _ => none) "application/x-ndjson" "not-json").body = none
  ∧ (handle_ndjson (fun _ => none) "application/x-ndjson" "not-json").statusCode =
      400 := ⟨rfl, rfl, rfl⟩

/-- C1 (amended): every response emitted by the nine handlers carries a
`content_type` field echoing the declared content type, except the NDJSON
and XML parse-error branches, whose responses consist solely of an `error`
field with HTTP status 400 and carry neither `status` nor `content_type`;
a JSON body parsing to a non-object emits no response at all. -/
theorem C1_content_type_echo (ct body : String) (emailValid : String → Bool)
    (post : String → Option String) (files : String → Option UploadedFile)
    (loads : String → Option Json) (fromstring : String → Option XmlElem)
    (bytes : List Nat) :
    pyLookup "content_type" (handle_urlencoded emailValid ct post).body
        = some (.str ct)
  ∧ pyLookup "content_type" (handle_multipart emailValid ct post files).body
        = some (.str ct)
  ∧ (∀ r, handle_json emailValid loads ct body = .ok r →
        pyLookup "content_type" r.body = some (.str ct))
  ∧ (∀ vs, parseLines loads (ndjsonLines body) = some vs →
        pyLookup "content_type" (handle_ndjson loads ct body).body = some (.str ct))
  ∧ (parseLines loads (ndjsonLines body) = none →
        (handle_ndjson loads ct body).statusCode = 400 ∧
        (handle_ndjson loads ct body).body = [("error", .str "Invalid NDJSON")])
  ∧ pyLookup "content_type" (handle_text_plain ct body).body = some (.str ct)
  ∧ pyLookup "content_type" (handle_html ct body).body = some (.str ct)
  ∧ (∀ root, fromstring body = some root →
        pyLookup "content_type" (handle_xml fromstring ct body).body = some (.str ct))
  ∧ (fromstring body = none →
        (handle_xml fromstring ct body).statusCode = 400 ∧
        (handle_xml fromstring ct body).body = [("error", .str "Invalid XML")])
  ∧ pyLookup "content_type" (handle_svg ct body).body = some (.str ct)
  ∧ pyLookup "content_type" (handle_binary ct bytes).body = some (.str ct) := by
  refine ⟨?_, ?_, ?_, ?_, ?_, rfl, rfl, ?_, ?_, rfl, rfl⟩
  · simp only [handle_urlencoded]
    cases h : urlencodedValidate emailValid post with
    | error errs => rfl
    | ok v =>
      obtain ⟨u, e, p, b⟩ := v
      rfl
  · simp only [handle_multipart]
    cases h : multipartValidate emailValid post files with
    | error errs => rfl
    | ok v =>
      obtain ⟨u, e, a⟩ := v
      rfl
  · intro r h
    cases hl : loads body with
    | none =>
      simp only [handle_json, hl] at h
      injection h with h'
      subst h'
      rfl
    | some j =>
      cases j with
      | obj kvs =>
        simp only [handle_json, hl] at h
        injection h with h'
        subst h'
        cases hv : validateSchema emailValid kvs with
        | ok d => rfl
        | error es => rfl
      | null => simp only [handle_json, hl] at h; exact Except.noConfusion h
      | bool b => simp only [handle_json, hl] at h; exact Except.noConfusion h
      | num n => simp only [handle_json, hl] at h; exact Except.noConfusion h
      | str s => simp only [handle_json, hl] at h; exact Except.noConfusion h
      | arr xs => simp only [handle_json, hl] at h; exact Except.noConfusion h
  · intro vs h
    simp only [handle_ndjson]
    rw [h]
    rfl
  · intro h
    simp only [handle_ndjson]
    rw [h]
    exact ⟨rfl, rfl⟩
  · intro root h
    simp only [handle_xml]
    rw [h]
    rfl
  · intro h
    simp only [handle_xml]
    rw [h]
    exact ⟨rfl, rfl⟩

/-- Witness for C1 (amended): the branch facts instantiated at concrete
requests covering the form handlers, both NDJSON branches, both XML
branches and the JSON invalid-body branch. -/
theorem C1_content_type_echo_witness :
    pyLookup "content_type" (handle_urlencoded demoEmailValid "ct" demoPost).body
        = some (.str "ct")
  ∧ pyLookup "content_type"
        (handle_multipart demoEmailValid "ct" demoPost demoFilesEmpty).body
        = some (.str "ct")
  ∧ pyLookup "content_type" (handle_ndjson (fun _ => some Json.null) "ct" "x").body
        = some (.str "ct")
  ∧ (handle_ndjson (fun _ => none) "ct" "x").statusCode = 400
  ∧ (handle_ndjson (fun _ => none) "ct" "x").body = [("error", .str "Invalid NDJSON")]
  ∧ pyLookup "content_type"
        (handle_xml (fun _ => some ⟨"r", []⟩) "ct" "x").body = some (.str "ct")
  ∧ (handle_xml (fun _ => none) "ct" "x").statusCode = 400
  ∧ pyLookup "content_type"
        (Response.mk 400
          [("status", .str "error"), ("error", .str "Invalid JSON"),
           ("content_type", .str "ct")]).body = some (.str "ct") := by
  obtain ⟨a1, a2, a3, _, a5, _, _, _, a9, _, _⟩ :=
    C1_content_type_echo "ct" "x" demoEmailValid demoPost demoFilesEmpty
      (fun _ => none) (fun _ => none) []
  obtain ⟨_, _, _, b4, _, _, _, b8, _, _, _⟩ :=
    C1_content_type_echo "ct" "x" demoEmailValid demoPost demoFilesEmpty
      (fun _ => some Json.null) (fun _ => some ⟨"r", []⟩) []
  exact ⟨a1, a2, b4 [Json.null] rfl, (a5 rfl).1, (a5 rfl).2, b8 ⟨"r", []⟩ rfl,
         (a9 rfl).1, a3 _ rfl⟩

/-- C2 is refuted at a concrete input: on the body `[1, 2]`, which
`json.loads` parses to a JSON array (as the demonstration parse does), the
splat `JSONDataSchema(**data)` raises a `TypeError` that no `except`
clause catches, so the handler terminates with an uncaught fault instead
of a structured response. -/
theorem C2_counterexample :
    handle_json demoEmailValid demoLoadsArr "application/json" "[1, 2]" =
      .error typeErrorMsg := rfl

/-- C2 (amended): the JSON handler answers a structured response for every
body that fails to parse (the Invalid JSON error) and for every body
parsing to a JSON object (success or the per-field validation errors),
but a body parsing to a non-object JSON value — array, string, number,
boolean or null — makes it terminate with the uncaught `TypeError` of the
`**data` splat. -/
theorem C2_json_structured_or_type_fault (emailValid : String → Bool)
    (loads : String → Option Json) (ct body : String) :
    (loads body = none → handle_json emailValid loads ct body =
        .ok ⟨400, [("status", .str "error"), ("error", .str "Invalid JSON"),
                   ("content_type", .str ct)]⟩)
  ∧ (∀ kvs, loads body = some (.obj kvs) →
        ∃ r, handle_json emailValid loads ct body = .ok r)
  ∧ (∀ j, loads body = some j → (∀ kvs, j ≠ Json.obj kvs) →
        handle_json emailValid loads ct body = .error typeErrorMsg) := by
  refine ⟨?_, ?_, ?_⟩
  · intro h
    simp only [handle_json, h]
  · intro kvs h
    exact ⟨schemaResponse ct (validateSchema emailValid kvs),
           by simp only [handle_json, h]⟩
  · intro j h hno
    simp only [handle_json, h]

/-- Witness for C2 (amended) at three concrete bodies: unparsable, an
empty JSON object, and the array `[1, 2]`. -/
theorem C2_json_structured_or_type_fault_witness :
    handle_json demoEmailValid (fun _ => none) "application/json" "x" =
      .ok ⟨400, [("status", .str "error"), ("error", .str "Invalid JSON"),
                 ("content_type", .str "application/json")]⟩
  ∧ (∃ r, handle_json demoEmailValid (fun _ => some (.obj []))
        "application/json" "\x7b\x7d" = .ok r)
  ∧ handle_json demoEmailValid demoLoadsArr "application/json" "[1, 2]" =
      .error typeErrorMsg := by
  refine ⟨?_, ?_, ?_⟩
  · exact (C2_json_structured_or_type_fault demoEmailValid (fun _ => none)
      "application/json" "x").1 rfl
  · exact (C2_json_structured_or_type_fault demoEmailValid (fun _ => some (.obj []))
      "application/json" "\x7b\x7d").2.1 [] rfl
  · exact (C2_json_structured_or_type_fault demoEmailValid demoLoadsArr
      "application/json" "[1, 2]").2.2 (.arr [.num 1, .num 2]) rfl
      (fun kvs hk => Json.noConfusion hk)

end DjangoPostCT
